import Mathlib

/-!
Verification of the stage-transition orchestrator in `src/client/src/Supply.js`
(browser-side controller of a supply-chain ledger UI).

The embedding models:
* `calculatePayment` (Supply.js lines 77-81) over an exact decimal type,
  with `Web3.utils.toWei` / `Web3.utils.fromWei` for the 18-decimal currency;
* `handleSubmit` (lines 83-128) as a function from an abstract ledger
  environment and view state to a new view state plus a trace of ledger calls;
* `loadBlockchainData` (lines 34-59) as a function producing the snapshot and
  the trace of ledger reads.

Machine numbers in the JS code are either BN (arbitrary precision) or small
indices, so they are modelled by `Nat` / `Int` directly.
-/

/-- A non-negative decimal number `intPart.frac` with `fracLen` fractional
digits; its value is `intPart + frac / 10 ^ fracLen`.  This models the decimal
strings that `Web3.utils.toWei` / `fromWei` produce and consume. -/
structure Dec where
  intPart : Nat
  fracLen : Nat
  frac : Nat
deriving Repr, DecidableEq

/-- Well-formedness of the decimal representation: the fractional digits
actually fit in `fracLen` places. -/
def Dec.wf (d : Dec) : Prop := d.frac < 10 ^ d.fracLen

instance (d : Dec) : Decidable d.wf := by
  unfold Dec.wf
  infer_instance

/-- Minor units (wei) per major unit (ether): the ledger currency has 18
decimal places. -/
def weiPerEther : Nat := 10 ^ 18

/-- `Web3.utils.toWei(s, 'ether')`: scales a decimal string to an integer
amount of minor units.  web3 rejects inputs with more than 18 fractional
digits, modelled by returning `none`. -/
def toWei (d : Dec) : Option Nat :=
  if d.fracLen ≤ 18 then
    some (d.intPart * weiPerEther + d.frac * 10 ^ (18 - d.fracLen))
  else none

/-- Drop trailing zero digits of a fraction of `n` digits, as `fromWei` does
when printing; returns the new digit count and fraction. -/
def trimFrac : Nat → Nat → Nat × Nat
  | 0, f => (0, f)
  | n + 1, f => if f % 10 = 0 then trimFrac n (f / 10) else (n + 1, f)

/-- `Web3.utils.fromWei(p, 'ether')`: renders an integer amount of minor units
as a decimal number of major units (trailing fractional zeros removed). -/
def fromWei (p : Nat) : Dec :=
  let t := trimFrac 18 (p % weiPerEther)
  ⟨p / weiPerEther, t.1, t.2⟩

/-- `calculatePayment(price, quantity)` from Supply.js lines 77-81:
`toWei` the major-unit price, then multiply by the quantity with BN
(arbitrary-precision) arithmetic. -/
def calculatePayment (price : Dec) (quantity : Nat) : Option Nat :=
  (toWei price).map (fun priceInWei => priceInWei * quantity)

/-- The spec's `scaleToMinorUnits`, stated from the spec's words (section 4.1):
convert a human-scale decimal price into the ledger's minor-unit integer
representation using the fixed exponent 18.  Used only to compare
`calculatePayment` against the specified value. -/
def scaleToMinorUnits (d : Dec) : Nat :=
  d.intPart * weiPerEther + d.frac * 10 ^ (18 - d.fracLen)

/-- Trimming trailing zeros preserves the represented fraction value, keeps
the digit count bounded, and keeps the representation well-formed. -/
theorem trimFrac_spec : ∀ (n f : Nat), f < 10 ^ n →
    (trimFrac n f).1 ≤ n ∧ (trimFrac n f).2 < 10 ^ (trimFrac n f).1 ∧
      (trimFrac n f).2 * 10 ^ (n - (trimFrac n f).1) = f := by
  intro n
  induction n with
  | zero =>
    intro f hf
    simp only [pow_zero, Nat.lt_one_iff] at hf
    simp [trimFrac, hf]
  | succ n ih =>
    intro f hf
    by_cases h10 : f % 10 = 0
    · have hdiv : f / 10 < 10 ^ n := by
        have : f < 10 ^ n * 10 := by
          calc f < 10 ^ (n + 1) := hf
          _ = 10 ^ n * 10 := by ring
        exact Nat.div_lt_of_lt_mul (by omega)
      have ht := ih (f / 10) hdiv
      have hstep : trimFrac (n + 1) f = trimFrac n (f / 10) := by
        simp [trimFrac, h10]
      refine ⟨?_, ?_, ?_⟩
      · rw [hstep]; exact Nat.le_succ_of_le ht.1
      · rw [hstep]; exact ht.2.1
      · rw [hstep]
        have hle : (trimFrac n (f / 10)).1 ≤ n := ht.1
        have hpow : 10 ^ (n + 1 - (trimFrac n (f / 10)).1) =
            10 ^ (n - (trimFrac n (f / 10)).1) * 10 := by
          rw [← pow_succ]
          congr 1
          omega
        rw [hpow]
        calc (trimFrac n (f / 10)).2 * (10 ^ (n - (trimFrac n (f / 10)).1) * 10)
            = (trimFrac n (f / 10)).2 * 10 ^ (n - (trimFrac n (f / 10)).1) * 10 := by ring
        _ = f / 10 * 10 := by rw [ht.2.2]
        _ = f := by omega
    · have hstep : trimFrac (n + 1) f = (n + 1, f) := by
        simp [trimFrac, h10]
      rw [hstep]
      exact ⟨le_refl _, hf, by simp⟩

/-- `fromWei` always yields a well-formed decimal with at most 18 fractional
digits. -/
theorem fromWei_wf (p : Nat) : (fromWei p).wf ∧ (fromWei p).fracLen ≤ 18 := by
  have hmod : p % weiPerEther < 10 ^ 18 := Nat.mod_lt _ (by norm_num [weiPerEther])
  have ht := trimFrac_spec 18 (p % weiPerEther) hmod
  exact ⟨ht.2.1, ht.1⟩

/-- Round trip: scaling the `fromWei` rendering of `p` back to minor units
recovers exactly `p`. -/
theorem toWei_fromWei (p : Nat) : toWei (fromWei p) = some p := by
  have hmod : p % weiPerEther < 10 ^ 18 := Nat.mod_lt _ (by norm_num [weiPerEther])
  have ht := trimFrac_spec 18 (p % weiPerEther) hmod
  unfold toWei fromWei
  simp only [ht.1, if_pos]
  congr 1
  rw [ht.2.2, Nat.mul_comm]
  exact Nat.div_add_mod p weiPerEther

/-- Routing a minor-unit price through the major-unit decimal representation
inside `calculatePayment` changes nothing: the payment is exactly `p * q`. -/
theorem calculatePayment_fromWei (p q : Nat) :
    calculatePayment (fromWei p) q = some (p * q) := by
  unfold calculatePayment
  rw [toWei_fromWei]
  rfl

/-- A product record as returned by the ledger's `MedicineStock` read
(spec section 3); `price` is in minor units. -/
structure Product where
  id : Nat
  name : String
  destinationCompanyName : String
  price : Nat
  quantity : Nat
  expirationDate : Nat
  timestamp : Nat
deriving Repr, DecidableEq

/-- The component's local React state (`useState` hooks of Supply.js
lines 15-21).  `medData` / `medStage` form the Snapshot; they are kept as
ordered association lists to capture iteration order. -/
structure ViewState where
  currentAccount : String
  loader : Bool
  medData : List (Nat × Product)
  medStage : List (Nat × String)
  id : String
  error : String
deriving Repr, DecidableEq

/-- A ledger write request as assembled by `handleSubmit` lines 114-118:
contract method, argument, sender, gas ceiling and attached value. -/
structure WriteCall where
  methodName : String
  productId : Int
  fromAccount : String
  gas : Nat
  value : Nat
deriving Repr, DecidableEq

/-- One observable external call made by `handleSubmit`, in order. -/
inductive Ev where
  | readStock (productId : Int)
  | reqAccounts
  | estimate (methodName : String) (productId : Int)
  | sendCall (w : WriteCall)
deriving Repr, DecidableEq

/-- The external collaborators `handleSubmit` talks to: the deployed
contract's method table, the `MedicineStock` read, the wallet's
`eth_requestAccounts`, gas estimation, and the write call itself.  Fallible
operations return `Except` with the thrown error message. -/
structure Env where
  methods : List String
  medicineStock : Int → Except String Product
  requestAccounts : Except String (List String)
  estimateGas : String → Int → Except String Nat
  send : WriteCall → Except String String

/-- JS `parseInt(s, 10)`: skip leading whitespace, optional sign, then the
longest prefix of decimal digits; `none` models `NaN` (no digits found). -/
def parseDigits (cs : List Char) : Option Nat :=
  let ds := cs.takeWhile Char.isDigit
  if ds.isEmpty then none
  else some (ds.foldl (fun a c => a * 10 + (c.toNat - 48)) 0)

/-- JS `parseInt(s, 10)` on the id input field (Supply.js line 88). -/
def parseInt10 (s : String) : Option Int :=
  match s.data.dropWhile Char.isWhitespace with
  | '-' :: rest => (parseDigits rest).map (fun n => -(n : Int))
  | '+' :: rest => (parseDigits rest).map (fun n => (n : Int))
  | cs => (parseDigits cs).map (fun n => (n : Int))

/-- Fallback gas limit used when estimation fails (Supply.js line 111). -/
def fallbackGas : Nat := 3000000

/-- Gas resolution of Supply.js lines 106-112: use the estimate, or the
fixed fallback when estimation throws for any reason. -/
def resolveGas (env : Env) (methodName : String) (productId : Int) : Nat :=
  match env.estimateGas methodName productId with
  | Except.ok g => g
  | Except.error _ => fallbackGas

/-- The body of the `try` block of `handleSubmit` (Supply.js lines 87-121),
returning the trace of external calls in order, and either the completed
write call or the thrown error message. -/
def handleSubmitRun (env : Env) (methodName : String) (idInput : String) :
    List Ev × Except String WriteCall :=
  match parseInt10 idInput with
  | none => ([], Except.error "Invalid Product ID")
  | some productId =>
    if methodName ∈ env.methods then
      match env.medicineStock productId with
      | Except.error e => ([Ev.readStock productId], Except.error e)
      | Except.ok product =>
        match calculatePayment (fromWei product.price) product.quantity with
        | none => ([Ev.readStock productId], Except.error "error converting number")
        | some paymentAmount =>
          match env.requestAccounts with
          | Except.error e => ([Ev.readStock productId, Ev.reqAccounts], Except.error e)
          | Except.ok accounts =>
            match env.send ⟨methodName, productId, accounts.headD "",
                resolveGas env methodName productId, paymentAmount⟩ with
            | Except.error e =>
              ([Ev.readStock productId, Ev.reqAccounts,
                Ev.estimate methodName productId,
                Ev.sendCall ⟨methodName, productId, accounts.headD "",
                  resolveGas env methodName productId, paymentAmount⟩],
               Except.error e)
            | Except.ok _tx =>
              ([Ev.readStock productId, Ev.reqAccounts,
                Ev.estimate methodName productId,
                Ev.sendCall ⟨methodName, productId, accounts.headD "",
                  resolveGas env methodName productId, paymentAmount⟩],
               Except.ok ⟨methodName, productId, accounts.headD "",
                 resolveGas env methodName productId, paymentAmount⟩)
    else
      ([], Except.error ("Method " ++ methodName ++ " does not exist on the smart contract."))

/-- `handleSubmit` (Supply.js lines 83-128): clears the error, runs the try
block, and on success clears the id field while on failure stores the single
message naming the method and the cause.  Returns the new view state and the
trace of external calls. -/
def handleSubmit (env : Env) (st : ViewState) (methodName : String) :
    ViewState × List Ev :=
  match handleSubmitRun env methodName st.id with
  | (trace, Except.ok _) => ({ st with error := "", id := "" }, trace)
  | (trace, Except.error msg) =>
    ({ st with error := "Error in " ++ methodName ++ ": " ++ msg }, trace)

/-- The four ledger operations wired to the four forms of the UI
(Supply.js lines 177, 194, 211, 228). -/
def uiOperations : List String :=
  ["startManufacturing", "startShipping", "startDistribution", "storeInWarehouse"]

/-- One observable step of `loadBlockchainData`. -/
inductive LoadEv where
  | readCtr
  | readStock (productId : Nat)
  | readStage (productId : Nat)
  | alertMsg (s : String)
deriving Repr, DecidableEq

/-- External collaborators of `loadBlockchainData` (Supply.js lines 34-59):
accounts, the contract deployment record for the current network, and the
ledger reads. -/
structure LoadEnv where
  accounts : List String
  networkData : Option String
  medicineCtr : Nat
  medicineStock : Nat → Product
  showStage : Nat → String

/-- Ids visited by the load loop of Supply.js lines 48-52:
`i` from `0` to `medCtr - 1`, reading id `i + 1` each time. -/
def loadIds (n : Nat) : List Nat := (List.range n).map (fun i => i + 1)

/-- `loadBlockchainData` (Supply.js lines 34-59): set the loader, resolve the
account, and if the contract is deployed on this network read the counter and
then, sequentially for each id, the product and its stage, replacing the
snapshot; otherwise alert and leave the loader set.  Returns the new view
state and the trace of reads/alerts. -/
def loadBlockchainData (env : LoadEnv) (st : ViewState) : ViewState × List LoadEv :=
  let st1 := { st with loader := true, currentAccount := env.accounts.headD "" }
  match env.networkData with
  | some _addr =>
    ({ st1 with
        medData := (loadIds env.medicineCtr).map (fun i => (i, env.medicineStock i)),
        medStage := (loadIds env.medicineCtr).map (fun i => (i, env.showStage i)),
        loader := false },
     LoadEv.readCtr ::
       ((loadIds env.medicineCtr).map
         (fun i => [LoadEv.readStock i, LoadEv.readStage i])).flatten)
  | none =>
    (st1, [LoadEv.alertMsg "The smart contract is not deployed to the current network"])

/-- The component renders the catalog only once the loader is cleared
(Supply.js lines 61-67 return the loading screen instead). -/
def rendersCatalog (st : ViewState) : Bool := !st.loader

/-- A sample ledger product: id 1, price 2 ether in minor units, quantity 5
(the worked example of spec section 8). -/
def sampleProduct : Product :=
  ⟨1, "Paracetamol", "HealthCo", 2000000000000000000, 5, 1767225600, 1700000000⟩

/-- The contract methods Supply.js itself relies on: the three reads used by
`loadBlockchainData` plus the four stage-transition writes. -/
def contractMethods : List String :=
  "medicineCtr" :: "MedicineStock" :: "showStage" :: uiOperations

/-- A healthy environment: product 1 exists, one unlocked account, gas
estimation succeeds, the write is accepted. -/
def sampleEnv : Env where
  methods := contractMethods
  medicineStock := fun i => if i = 1 then Except.ok sampleProduct else Except.error "invalid id"
  requestAccounts := Except.ok ["0xabc"]
  estimateGas := fun _ _ => Except.ok 21000
  send := fun _ => Except.ok "0xhash"

/-- A product stored under the non-positive id 0, price 1 ether, quantity 2. -/
def productZero : Product :=
  ⟨0, "ZeroMed", "HealthCo", 1000000000000000000, 2, 1767225600, 1700000000⟩

/-- An environment whose ledger answers the read for id 0. -/
def envZero : Env :=
  { sampleEnv with
      medicineStock := fun i => if i = 0 then Except.ok productZero else Except.error "invalid id" }

/-- An environment in which gas estimation always throws. -/
def envGasFail : Env :=
  { sampleEnv with estimateGas := fun _ _ => Except.error "execution reverted" }

/-- An environment in which the ledger write itself is rejected. -/
def envSendFail : Env :=
  { sampleEnv with send := fun _ => Except.error "User denied transaction signature." }

/-- The initial view state of the component (Supply.js lines 15-21). -/
def initialState : ViewState := ⟨"", true, [], [], "", ""⟩

/-- A loaded view state with product 1 displayed and id input "1". -/
def sampleState : ViewState :=
  ⟨"0xabc", false, [(1, sampleProduct)], [(1, "Medicine Ordered")], "1", ""⟩

/-- Under the hypotheses that every step up to the write succeeds, the run's
trace is exactly: read the product, request accounts, estimate gas, send the
write carrying `price * quantity` as value. -/
theorem handleSubmitRun_trace (env : Env) (methodName idInput : String) (pid : Int)
    (prod : Product) (accounts : List String)
    (hp : parseInt10 idInput = some pid)
    (hm : methodName ∈ env.methods)
    (hs : env.medicineStock pid = Except.ok prod)
    (ha : env.requestAccounts = Except.ok accounts) :
    (handleSubmitRun env methodName idInput).1 =
      [Ev.readStock pid, Ev.reqAccounts, Ev.estimate methodName pid,
       Ev.sendCall ⟨methodName, pid, accounts.headD "",
         resolveGas env methodName pid, prod.price * prod.quantity⟩] := by
  simp only [handleSubmitRun, hp]
  rw [if_pos hm]
  simp only [hs, calculatePayment_fromWei, ha]
  split <;> rfl

/-- Under the same hypotheses, if the ledger accepts the assembled write call
the run returns it as the successful result. -/
theorem handleSubmitRun_result (env : Env) (methodName idInput : String) (pid : Int)
    (prod : Product) (accounts : List String) (tx : String)
    (hp : parseInt10 idInput = some pid)
    (hm : methodName ∈ env.methods)
    (hs : env.medicineStock pid = Except.ok prod)
    (ha : env.requestAccounts = Except.ok accounts)
    (hsend : env.send ⟨methodName, pid, accounts.headD "",
        resolveGas env methodName pid, prod.price * prod.quantity⟩ = Except.ok tx) :
    (handleSubmitRun env methodName idInput).2 =
      Except.ok ⟨methodName, pid, accounts.headD "",
        resolveGas env methodName pid, prod.price * prod.quantity⟩ := by
  simp only [handleSubmitRun, hp]
  rw [if_pos hm]
  simp only [hs, calculatePayment_fromWei, ha, hsend]

/-- Claim C1: for every well-formed non-negative decimal unit price (with at
most 18 fractional digits, the precision of the minor unit) and every
quantity, `calculatePayment` is a function (hence deterministic) returning
exactly `scaleToMinorUnits` of the price times the quantity, computed over
`Nat`, the arbitrary-precision integers, never through floating point. -/
theorem claim_c1_calculatePayment_exact (d : Dec) (q : Nat)
    (_hwf : d.wf) (hlen : d.fracLen ≤ 18) :
    calculatePayment d q = some (scaleToMinorUnits d * q) := by
  unfold calculatePayment toWei scaleToMinorUnits
  rw [if_pos hlen]
  rfl

/-- Witness for C1 at the spec's large value: price 1.5, quantity 1000000
give exactly 1.5e24 minor units, beyond the 2^53 float-safe range. -/
theorem claim_c1_witness :
    Dec.wf ⟨1, 1, 5⟩ ∧
    calculatePayment ⟨1, 1, 5⟩ 1000000 = some (scaleToMinorUnits ⟨1, 1, 5⟩ * 1000000) ∧
    scaleToMinorUnits ⟨1, 1, 5⟩ * 1000000 = 1500000000000000000000000 ∧
    2 ^ 53 < 1500000000000000000000000 :=
  ⟨by decide,
   claim_c1_calculatePayment_exact ⟨1, 1, 5⟩ 1000000 (by decide) (by decide),
   by decide, by decide⟩

/-- Claim C10: for every minor-unit price stored on the ledger, the
`fromWei` / `toWei` round trip inside `calculatePayment` recovers exactly the
stored price, so the payment amount is never altered by the detour through
the major-unit decimal representation. -/
theorem claim_c10_roundTrip (p : Nat) :
    toWei (fromWei p) = some p ∧
    ∀ q : Nat, calculatePayment (fromWei p) q = some (p * q) :=
  ⟨toWei_fromWei p, fun q => calculatePayment_fromWei p q⟩

/-- Claim C2 (amended): for every id input on which `parseInt(id, 10)` yields
NaN, `handleSubmit` throws Invalid Product ID before any external call (the
trace is empty, so in particular no ledger write happens) and stores the
corresponding error message. -/
theorem claim_c2_nan_rejected (env : Env) (st : ViewState) (methodName : String)
    (h : parseInt10 st.id = none) :
    handleSubmitRun env methodName st.id = ([], Except.error "Invalid Product ID") ∧
    (handleSubmit env st methodName).1.error =
      "Error in " ++ methodName ++ ": " ++ "Invalid Product ID" := by
  have hrun : handleSubmitRun env methodName st.id = ([], Except.error "Invalid Product ID") := by
    simp only [handleSubmitRun, h]
  refine ⟨hrun, ?_⟩
  unfold handleSubmit
  rw [hrun]

/-- Witness for C2 (amended): the input "abc" parses to NaN and is rejected
with no external call. -/
theorem claim_c2_witness :
    handleSubmitRun sampleEnv "startManufacturing" ({ sampleState with id := "abc" } : ViewState).id =
      ([], Except.error "Invalid Product ID") ∧
    (handleSubmit sampleEnv { sampleState with id := "abc" } "startManufacturing").1.error =
      "Error in " ++ "startManufacturing" ++ ": " ++ "Invalid Product ID" :=
  claim_c2_nan_rejected sampleEnv { sampleState with id := "abc" } "startManufacturing" (by decide)

/-- Counterexample to C2 as stated: the input "0" is a non-positive product
id, yet `handleSubmit` does not fail with Invalid Product ID — it completes
the ledger write for id 0. -/
theorem claim_c2_counterexample :
    (handleSubmitRun envZero "startManufacturing" "0").2 =
      Except.ok ⟨"startManufacturing", 0, "0xabc", 21000, 2000000000000000000⟩ ∧
    Ev.sendCall ⟨"startManufacturing", 0, "0xabc", 21000, 2000000000000000000⟩ ∈
      (handleSubmitRun envZero "startManufacturing" "0").1 := by
  refine ⟨rfl, ?_⟩
  decide

/-- Claim C3: whenever the try block of `handleSubmit` fails with any error,
the snapshot (`medData`, `medStage`) and the id input are left exactly as they
were, and the one stored user-facing error message names the attempted
operation and the underlying cause. -/
theorem claim_c3_failure_frame (env : Env) (st : ViewState) (methodName : String)
    (trace : List Ev) (msg : String)
    (h : handleSubmitRun env methodName st.id = (trace, Except.error msg)) :
    (handleSubmit env st methodName).1.medData = st.medData ∧
    (handleSubmit env st methodName).1.medStage = st.medStage ∧
    (handleSubmit env st methodName).1.id = st.id ∧
    (handleSubmit env st methodName).1.error =
      "Error in " ++ methodName ++ ": " ++ msg := by
  unfold handleSubmit
  rw [h]
  exact ⟨rfl, rfl, rfl, rfl⟩

/-- Witness for C3: a failure during the ledger write itself (the wallet
denies the transaction) leaves the displayed snapshot untouched and stores
the message naming the operation and cause. -/
theorem claim_c3_witness :
    (handleSubmit envSendFail sampleState "startShipping").1.medData = sampleState.medData ∧
    (handleSubmit envSendFail sampleState "startShipping").1.medStage = sampleState.medStage ∧
    (handleSubmit envSendFail sampleState "startShipping").1.id = sampleState.id ∧
    (handleSubmit envSendFail sampleState "startShipping").1.error =
      "Error in " ++ "startShipping" ++ ": " ++ "User denied transaction signature." :=
  claim_c3_failure_frame envSendFail sampleState "startShipping"
    [Ev.readStock 1, Ev.reqAccounts, Ev.estimate "startShipping" 1,
     Ev.sendCall ⟨"startShipping", 1, "0xabc", 21000, 10000000000000000000⟩]
    "User denied transaction signature." (by rfl)

/-- Claim C4: when gas estimation throws, `handleSubmit` still proceeds to
the ledger write using the fixed fallback gas ceiling, and if the write is
accepted the whole submission succeeds — the estimation failure is never
surfaced as an error. -/
theorem claim_c4_gas_fallback (env : Env) (methodName idInput : String) (pid : Int)
    (prod : Product) (accounts : List String) (e : String)
    (hp : parseInt10 idInput = some pid)
    (hm : methodName ∈ env.methods)
    (hs : env.medicineStock pid = Except.ok prod)
    (ha : env.requestAccounts = Except.ok accounts)
    (hg : env.estimateGas methodName pid = Except.error e) :
    Ev.sendCall ⟨methodName, pid, accounts.headD "", fallbackGas,
        prod.price * prod.quantity⟩ ∈ (handleSubmitRun env methodName idInput).1 ∧
    ∀ tx : String,
      env.send ⟨methodName, pid, accounts.headD "", fallbackGas,
          prod.price * prod.quantity⟩ = Except.ok tx →
      (handleSubmitRun env methodName idInput).2 =
        Except.ok ⟨methodName, pid, accounts.headD "", fallbackGas,
          prod.price * prod.quantity⟩ := by
  have hgas : resolveGas env methodName pid = fallbackGas := by
    unfold resolveGas
    rw [hg]
  constructor
  · rw [handleSubmitRun_trace env methodName idInput pid prod accounts hp hm hs ha, hgas]
    simp
  · intro tx hsend
    have := handleSubmitRun_result env methodName idInput pid prod accounts tx hp hm hs ha
    rw [hgas] at this
    exact this hsend

/-- Witness for C4: with estimation always reverting, the write still goes
out with the fallback gas limit 3000000 and the submission succeeds. -/
theorem claim_c4_witness :
    Ev.sendCall ⟨"startShipping", 1, "0xabc", fallbackGas, 10000000000000000000⟩ ∈
      (handleSubmitRun envGasFail "startShipping" "1").1 ∧
    (handleSubmitRun envGasFail "startShipping" "1").2 =
      Except.ok ⟨"startShipping", 1, "0xabc", fallbackGas, 10000000000000000000⟩ := by
  have h := claim_c4_gas_fallback envGasFail "startShipping" "1" 1 sampleProduct
    ["0xabc"] "execution reverted" (by decide) (by decide) (by rfl) (by rfl) (by rfl)
  exact ⟨h.1, h.2 "0xhash" (by rfl)⟩

/-- Claim C5: when a contract is deployed, `loadBlockchainData` reads the
counter once and then issues exactly one paired (product, stage) read per id,
for ids 1..N in increasing order, and installs a full replacement snapshot
whose iteration order is 1..N; with N = 0 the snapshot is empty and no error
occurs (the loader is cleared). -/
theorem claim_c5_loadAll (env : LoadEnv) (st : ViewState) (addr : String)
    (h : env.networkData = some addr) :
    (loadBlockchainData env st).2 =
      LoadEv.readCtr ::
        ((List.range' 1 env.medicineCtr).map
          (fun i => [LoadEv.readStock i, LoadEv.readStage i])).flatten ∧
    (loadBlockchainData env st).1.medData =
      (List.range' 1 env.medicineCtr).map (fun i => (i, env.medicineStock i)) ∧
    (loadBlockchainData env st).1.medStage =
      (List.range' 1 env.medicineCtr).map (fun i => (i, env.showStage i)) ∧
    (loadBlockchainData env st).1.loader = false := by
  have hids : loadIds env.medicineCtr = List.range' 1 env.medicineCtr := by
    unfold loadIds
    rw [List.range'_eq_map_range]
    simp [Nat.add_comm]
  unfold loadBlockchainData
  rw [h]
  refine ⟨?_, ?_, ?_, rfl⟩ <;> simp [hids]

/-- A simple product record for each id. -/
def prodOfId (i : Nat) : Product :=
  ⟨i, "Med", "HealthCo", 1000000000000000000, 1, 1767225600, 1700000000⟩

/-- A deployed-contract load environment reporting three products. -/
def loadEnvThree : LoadEnv :=
  ⟨["0xabc"], some "0xdeadbeef", 3, prodOfId, fun i => "Stage " ++ toString i⟩

/-- The same environment with an empty ledger. -/
def loadEnvZero : LoadEnv := { loadEnvThree with medicineCtr := 0 }

/-- Witness for C5 at counts 3 and 0: three paired reads for ids 1, 2, 3 in
order, snapshot order 1, 2, 3; and an empty snapshot with the loader cleared
for count 0. -/
theorem claim_c5_witness :
    (loadBlockchainData loadEnvThree initialState).2 =
      [LoadEv.readCtr, LoadEv.readStock 1, LoadEv.readStage 1, LoadEv.readStock 2,
       LoadEv.readStage 2, LoadEv.readStock 3, LoadEv.readStage 3] ∧
    (loadBlockchainData loadEnvThree initialState).1.medData =
      [(1, prodOfId 1), (2, prodOfId 2), (3, prodOfId 3)] ∧
    (loadBlockchainData loadEnvZero initialState).1.medData = [] ∧
    (loadBlockchainData loadEnvZero initialState).1.loader = false := by
  have h3 := claim_c5_loadAll loadEnvThree initialState "0xdeadbeef" rfl
  have h0 := claim_c5_loadAll loadEnvZero initialState "0xdeadbeef" rfl
  refine ⟨?_, ?_, ?_, h0.2.2.2⟩
  · rw [h3.1]
    rfl
  · rw [h3.2.1]
    rfl
  · rw [h0.2.1]
    rfl

/-- Claim C6 (amended): `handleSubmit` resolves the operation by dynamic
lookup of the method name on the contract's method table, failing exactly
when the name is absent from the contract (with a message naming the missing
method, before any external call) — not when it merely falls outside the four
fixed UI operations. -/
theorem claim_c6_method_lookup (env : Env) (methodName idInput : String) (pid : Int)
    (hp : parseInt10 idInput = some pid)
    (hm : methodName ∉ env.methods) :
    handleSubmitRun env methodName idInput =
      ([], Except.error ("Method " ++ methodName ++ " does not exist on the smart contract.")) := by
  simp only [handleSubmitRun, hp]
  rw [if_neg hm]

/-- Witness for C6 (amended): a name absent from the contract is rejected
with no external call. -/
theorem claim_c6_witness :
    handleSubmitRun sampleEnv "launchProduct" "1" =
      ([], Except.error ("Method " ++ "launchProduct" ++ " does not exist on the smart contract.")) :=
  claim_c6_method_lookup sampleEnv "launchProduct" "1" 1 (by decide) (by decide)

/-- Counterexample to C6 as stated: "showStage" is outside the four-operation
enumeration of the UI, yet `handleSubmit` does not fail with an unknown
operation error — the name exists on the contract, so the run completes a
write call to it. -/
theorem claim_c6_counterexample :
    "showStage" ∉ uiOperations ∧
    (handleSubmitRun sampleEnv "showStage" "1").2 =
      Except.ok ⟨"showStage", 1, "0xabc", 21000, 10000000000000000000⟩ := by
  refine ⟨by decide, rfl⟩

/-- Claim C7: for every valid submission, the attached value of the write is
exactly `price * quantity` of the product as re-read from the ledger at
submission time, and the whole trace of external calls is independent of the
cached snapshot held in the view state. -/
theorem claim_c7_payment_value (env : Env) (methodName idInput : String) (pid : Int)
    (prod : Product) (accounts : List String)
    (hp : parseInt10 idInput = some pid)
    (hm : methodName ∈ env.methods)
    (hs : env.medicineStock pid = Except.ok prod)
    (ha : env.requestAccounts = Except.ok accounts) :
    Ev.sendCall ⟨methodName, pid, accounts.headD "",
        resolveGas env methodName pid, prod.price * prod.quantity⟩ ∈
      (handleSubmitRun env methodName idInput).1 ∧
    ∀ st : ViewState, st.id = idInput →
      (handleSubmit env st methodName).2 = (handleSubmitRun env methodName idInput).1 := by
  constructor
  · rw [handleSubmitRun_trace env methodName idInput pid prod accounts hp hm hs ha]
    simp
  · intro st hst
    unfold handleSubmit
    rw [hst]
    cases hr : handleSubmitRun env methodName idInput with
    | mk t r => cases r <;> rfl

/-- Witness for C7 at the spec's example: price 2e18 minor units, quantity 5
give an attached value of exactly 1e19 on the Manufacture write. -/
theorem claim_c7_witness :
    Ev.sendCall ⟨"startManufacturing", 1, "0xabc",
        resolveGas sampleEnv "startManufacturing" 1,
        sampleProduct.price * sampleProduct.quantity⟩ ∈
      (handleSubmitRun sampleEnv "startManufacturing" "1").1 ∧
    sampleProduct.price * sampleProduct.quantity = 10000000000000000000 :=
  ⟨(claim_c7_payment_value sampleEnv "startManufacturing" "1" 1 sampleProduct
      ["0xabc"] (by decide) (by decide) (by rfl) (by rfl)).1, by decide⟩

/-- Claim C8: with no contract deployed on the current network,
`loadBlockchainData` issues no ledger read, surfaces a single blocking alert,
leaves the snapshot as it was, and keeps the loader set so the catalog is not
rendered. -/
theorem claim_c8_not_deployed (env : LoadEnv) (st : ViewState)
    (h : env.networkData = none) :
    (loadBlockchainData env st).2 =
      [LoadEv.alertMsg "The smart contract is not deployed to the current network"] ∧
    (loadBlockchainData env st).1.loader = true ∧
    rendersCatalog (loadBlockchainData env st).1 = false ∧
    (loadBlockchainData env st).1.medData = st.medData ∧
    (loadBlockchainData env st).1.medStage = st.medStage := by
  unfold loadBlockchainData rendersCatalog
  rw [h]
  exact ⟨rfl, rfl, rfl, rfl, rfl⟩

/-- An environment with no deployment record for the current network. -/
def loadEnvNone : LoadEnv := { loadEnvThree with networkData := none }

/-- Witness for C8: the undeployed environment yields only the alert, keeps
the loader, and leaves the snapshot untouched. -/
theorem claim_c8_witness :
    (loadBlockchainData loadEnvNone initialState).2 =
      [LoadEv.alertMsg "The smart contract is not deployed to the current network"] ∧
    (loadBlockchainData loadEnvNone initialState).1.loader = true ∧
    rendersCatalog (loadBlockchainData loadEnvNone initialState).1 = false ∧
    (loadBlockchainData loadEnvNone initialState).1.medData = initialState.medData ∧
    (loadBlockchainData loadEnvNone initialState).1.medStage = initialState.medStage :=
  claim_c8_not_deployed loadEnvNone initialState rfl

/-- Claim C9: `handleSubmit` never modifies the snapshot, whether it succeeds
or fails, and on success the only state changes are clearing the id input
field and resetting the error message. -/
theorem claim_c9_success_frame (env : Env) (st : ViewState) (methodName : String) :
    (handleSubmit env st methodName).1.medData = st.medData ∧
    (handleSubmit env st methodName).1.medStage = st.medStage ∧
    ∀ w : WriteCall, (handleSubmitRun env methodName st.id).2 = Except.ok w →
      (handleSubmit env st methodName).1 = { st with id := "", error := "" } := by
  unfold handleSubmit
  cases hr : handleSubmitRun env methodName st.id with
  | mk t r =>
    cases r with
    | ok w => exact ⟨rfl, rfl, fun w' hw => rfl⟩
    | error msg => exact ⟨rfl, rfl, fun w' hw => Except.noConfusion hw⟩

/-- Witness for C9: after the successful sample submission the state equals
the old state with only the id input cleared and the error reset. -/
theorem claim_c9_witness :
    (handleSubmit sampleEnv sampleState "startManufacturing").1 =
      { sampleState with id := "", error := "" } :=
  (claim_c9_success_frame sampleEnv sampleState "startManufacturing").2.2
    ⟨"startManufacturing", 1, "0xabc", 21000, 10000000000000000000⟩ (by rfl)
